import Mathlib

/-!
Shallow embedding of the query interpretation and predicate evaluation
engine of the Calgary 3D building dashboard.  The embedded code is the
Dashboard component (handleQuerySubmit, handleLoadProject,
handleSaveProject) together with the unit conversion helper of the api
service module.

Modelling conventions:
* JavaScript numbers are modelled as exact rationals; every constant that
  appears in the source (0.3048, thresholds, parsed integers) is exactly
  representable, and all comparisons proved below are robust to the
  floating point rounding the model abstracts away.
* Strings are handled as lists of characters; `toLowerCase` is modelled by
  mapping `Char.toLower` (the code only lowercases ASCII text).
* JavaScript truthiness on an optional numeric property (`undefined`,
  `null`, `0` and `NaN` are falsy) is modelled by `truthyQ`; an absent
  property is `none`.
* Fallible parses (`parseFloat` returning `NaN`, no regex match) are
  modelled with `Option`.
* The display-only `description` field of a filter is omitted from the
  model: it is derived text, documented as non-authoritative, and no
  claim mentions it.
-/

namespace Calgary

/-- `feet * 0.3048` (apiUtils.feetToMeters; the Dashboard inlines the same
constant in its height logic). -/
def feetToMeters (x : ℚ) : ℚ := x * (3048 / 10000 : ℚ)

/-- Lowercased character list of a string, modelling JS `toLowerCase` on
the ASCII strings this code handles. -/
def lowerChars (s : String) : List Char := s.data.map Char.toLower

/-- Substring occurrence: `hasSub needle hay` is true iff `needle` occurs
contiguously in `hay`. -/
def hasSub (needle : List Char) : List Char → Bool
  | [] => decide (needle = [])
  | c :: t => needle.isPrefixOf (c :: t) || hasSub needle t

/-- JS `hay.includes(needle)` on an already lowercased character list. -/
def incl (hay : List Char) (needle : String) : Bool := hasSub needle.data hay

/-- Value of a run of decimal digit characters. -/
def digitsToNat (ds : List Char) : Nat :=
  ds.foldl (fun acc c => acc * 10 + (c.toNat - 48)) 0

/-- JS regex `\s` character class (the whitespace characters that can occur
in the queries this code handles). -/
def isJsWs (c : Char) : Bool :=
  c = ' ' || c = '\t' || c = '\n' || c = '\r' || c = '\x0b' || c = '\x0c'

/-- `s` read as a character-list pattern being a prefix of `cs`. -/
def isPre (s : String) (cs : List Char) : Bool := s.data.isPrefixOf cs

/-- Matchability of the unit alternation `(?:meters?|metres?|m|feet?|ft)`
at the head of `cs`.  An alternative with an optional trailing letter
(`meters?`) matches iff its mandatory part (`meter`) is a prefix. -/
def heightUnitAlt (cs : List Char) : Bool :=
  isPre "meter" cs || isPre "metre" cs || isPre "m" cs ||
  isPre "fee" cs || isPre "ft" cs

/-- Matchability of the unit alternation `(?:floor|story)` at the head of
`cs`. -/
def floorUnitAlt (cs : List Char) : Bool :=
  isPre "floor" cs || isPre "story" cs

/-- First match of the JS regex `(\d+)\s*(?:<units>)` over `cs`, returning
the value of the captured digit run.  This scan is equivalent to the JS
backtracking search: shortening the greedy `\d+` leaves the regex engine
looking for a unit letter at a digit, and shortening the greedy `\s*`
leaves it looking for a unit letter at a whitespace character, so neither
form of backtracking can ever succeed where the greedy attempt failed;
and when an attempt starting inside a digit run fails, the attempt at the
start of the same run fails identically, so scanning character by
character returns exactly the first JS match. -/
def numUnitSearch (unitAlt : List Char → Bool) : List Char → Option Nat
  | [] => none
  | c :: rest =>
    if c.isDigit then
      let ds := List.takeWhile Char.isDigit (c :: rest)
      let tail := List.dropWhile Char.isDigit (c :: rest)
      if unitAlt (tail.dropWhile isJsWs) then some (digitsToNat ds)
      else numUnitSearch unitAlt rest
    else numUnitSearch unitAlt rest

/-- JS `Math.round` (half towards positive infinity). -/
def jsRound (x : ℚ) : ℤ := (x + 1 / 2).floor

/-- `Math.round(x * 100) / 100` — round to 2 decimal places. -/
def round2 (x : ℚ) : ℚ := (jsRound (x * 100) : ℚ) / 100

/-- A filter value is a JS number or string. -/
inductive FVal where
  | num (q : ℚ)
  | str (s : String)
deriving DecidableEq, Repr

/-- Canonical serializable predicate built by the interpreter.  The source
operator strings are kept verbatim: "=", ">", "<". -/
structure Filter where
  attr : String
  operator : String
  value : FVal
deriving DecidableEq, Repr

/-- The property bag of a building record; every field the engine reads is
optional, mirroring the loosely shaped JSON records. -/
structure Props where
  height_m : Option ℚ
  height_ft : Option ℚ
  height : Option String
  floors : Option ℚ
  building_type : Option String
  land_use : Option String
deriving DecidableEq, Repr

/-- A property bag with every field absent. -/
def emptyProps : Props := ⟨none, none, none, none, none, none⟩

/-- A building record as consumed by the engine: id plus property bag. -/
structure Building where
  id : Nat
  properties : Props
deriving DecidableEq, Repr

/-- JS truthiness of an optional numeric property: absent, `null`, `0`
(and `NaN`, which the model does not need to represent) are falsy. -/
def truthyQ : Option ℚ → Bool
  | some v => decide (v ≠ 0)
  | none => false

/-- `str.replace(/[^\d.]/g, '')`: keep only digits and decimal points. -/
def stripNonNum (cs : List Char) : List Char :=
  cs.filter (fun c => c.isDigit || c = '.')

/-- JS `parseFloat` on a string containing only digits and dots (the shape
produced by `stripNonNum`): parse the longest prefix of the form
`\d*(\.\d*)?`; `NaN` (here `none`) iff it contains no digit. -/
def parseFloatQ (cs : List Char) : Option ℚ :=
  let ip := cs.takeWhile Char.isDigit
  let rest := cs.dropWhile Char.isDigit
  let fp : List Char :=
    match rest with
    | '.' :: r => r.takeWhile Char.isDigit
    | _ => []
  if ip.isEmpty && fp.isEmpty then none
  else some ((digitsToNat ip : ℚ) + (digitsToNat fp : ℚ) / (10 ^ fp.length : ℚ))

/-- The `height` string handling of the interpret path (handleQuerySubmit
lines 163-177): lowercase, detect a feet vs meters unit by substring
search (feet checked first), strip all characters other than digits and
decimal points, parse, convert if the unit was feet; `none` when no unit
substring occurs or the parse is `NaN`. -/
def parseHeightStr (s : String) : Option ℚ :=
  let hs := lowerChars s
  if incl hs "ft" || incl hs "feet" then
    match parseFloatQ (stripNonNum hs) with
    | some v => some (feetToMeters v)
    | none => none
  else if incl hs "m" || incl hs "meters" || incl hs "metres" then
    parseFloatQ (stripNonNum hs)
  else none

/-- The height resolution priority chain of the interpret path
(handleQuerySubmit, lines 154-181): `height_m` if truthy, else
`height_ft * 0.3048` if truthy, else parse a truthy `height` string, else
unresolved. -/
def resolveHeightChain (p : Props) : Option ℚ :=
  if truthyQ p.height_m then p.height_m
  else if truthyQ p.height_ft then p.height_ft.map feetToMeters
  else
    match p.height with
    | some s => if s = "" then none else parseHeightStr s
    | none => none

/-- The filter callback of the height branch of handleQuerySubmit: resolve
a height in meters through the chain, exclude the record when unresolved,
else compare against the threshold with the chosen operator. -/
def heightPred (operator : String) (heightValue : ℚ) (b : Building) : Bool :=
  match resolveHeightChain b.properties with
  | some h => if operator = ">" then decide (h > heightValue) else decide (h < heightValue)
  | none => false

/-- The filter callback of the floors branch of handleQuerySubmit.
`if (!b.properties?.floors) return false` rejects both a missing `floors`
property and a zero one (JS falsiness). -/
def floorsPred (operator : String) (floorValue : ℚ) (b : Building) : Bool :=
  match b.properties.floors with
  | none => false
  | some fl =>
    if fl = 0 then false
    else if operator = ">" then decide (fl > floorValue) else decide (fl < floorValue)

/-- `b.properties?.land_use?.toLowerCase() || ''` as a character list. -/
def resolvedLandUse (p : Props) : List Char :=
  match p.land_use with
  | some s => lowerChars s
  | none => []

/-- The commercial land-use callback of handleQuerySubmit. -/
def commercialPred (b : Building) : Bool :=
  let landUse := resolvedLandUse b.properties
  incl landUse "commercial" || incl landUse "business" || incl landUse "office" ||
  incl landUse "retail" || incl landUse "shop" || incl landUse "store"

/-- The residential land-use callback of handleQuerySubmit (six keywords,
including condo and dwelling). -/
def residentialPred (b : Building) : Bool :=
  let landUse := resolvedLandUse b.properties
  incl landUse "residential" || incl landUse "home" || incl landUse "house" ||
  incl landUse "apartment" || incl landUse "condo" || incl landUse "dwelling"

/-- The mixed-use land-use callback of handleQuerySubmit. -/
def mixedPred (b : Building) : Bool :=
  let landUse := resolvedLandUse b.properties
  incl landUse "mixed" || incl landUse "multi" || incl landUse "combination"

/-- Strict equality `b.properties?.building_type === v` against a string
constant. -/
def btypeIs (v : String) (b : Building) : Bool :=
  decide (b.properties.building_type = some v)

/-!
The ordered keyword rules of handleQuerySubmit.  Each rule predicate is
the keyword condition of the corresponding if/else-if branch, verbatim;
the if/else chain of `interpret` reproduces the source order.
-/

/-- Rule 1: the low rise / low-rise keywords. -/
def lowRiseRule (query : List Char) : Bool :=
  incl query "low rise" || incl query "low-rise"

/-- Rule 2: mid rise / mid-rise / medium rise keywords. -/
def midRiseRule (query : List Char) : Bool :=
  incl query "mid rise" || incl query "mid-rise" || incl query "medium rise"

/-- Rule 3: high rise / high-rise / tall keywords. -/
def highRiseRule (query : List Char) : Bool :=
  incl query "high rise" || incl query "high-rise" || incl query "tall"

/-- Rule 4: single story / single-story / one story keywords. -/
def singleStoryRule (query : List Char) : Bool :=
  incl query "single story" || incl query "single-story" || incl query "one story"

/-- Rule 5 (height): height / tall / meters / metres / feet / ft. -/
def heightRule (query : List Char) : Bool :=
  incl query "height" || incl query "tall" || incl query "meters" ||
  incl query "metres" || incl query "feet" || incl query "ft"

/-- Rule 6 (floors): floor / floors / story / stories. -/
def floorsRule (query : List Char) : Bool :=
  incl query "floor" || incl query "floors" || incl query "story" || incl query "stories"

/-- Rule 7 (commercial): commercial / business / office / retail. -/
def commercialRule (query : List Char) : Bool :=
  incl query "commercial" || incl query "business" || incl query "office" || incl query "retail"

/-- Rule 8 (residential): residential / home / house / apartment. -/
def residentialRule (query : List Char) : Bool :=
  incl query "residential" || incl query "home" || incl query "house" || incl query "apartment"

/-- Rule 9 (mixed use): mixed use / mixed-use / mixed. -/
def mixedRule (query : List Char) : Bool :=
  incl query "mixed use" || incl query "mixed-use" || incl query "mixed"

/-- The comparison-direction check shared verbatim by the height and
floors branches: `<` when the query contains under / below / less than,
else the default `>`. -/
def directionOp (query : List Char) : String :=
  if incl query "under" || incl query "below" || incl query "less than" then "<" else ">"

/-- The pure core of handleQuerySubmit: lowercase the query, walk the
ordered keyword rule chain, and return the produced filter (if any)
together with the highlighted subset of `buildings`.  The rule order,
keywords, extraction logic and per-branch filter callbacks follow the
source if/else chain line by line. -/
def interpret (queryText : String) (buildings : List Building) :
    Option Filter × List Building :=
  let query := lowerChars queryText
  if lowRiseRule query then
    (some ⟨"building_type", "=", .str "low_rise"⟩, buildings.filter (btypeIs "low_rise"))
  else if midRiseRule query then
    (some ⟨"building_type", "=", .str "mid_rise"⟩, buildings.filter (btypeIs "mid_rise"))
  else if highRiseRule query then
    (some ⟨"building_type", "=", .str "high_rise"⟩, buildings.filter (btypeIs "high_rise"))
  else if singleStoryRule query then
    (some ⟨"building_type", "=", .str "single_story"⟩, buildings.filter (btypeIs "single_story"))
  else if heightRule query then
    let heightValue : ℚ :=
      match numUnitSearch heightUnitAlt query with
      | some n =>
        if incl query "feet" || incl query "ft" then round2 (feetToMeters (n : ℚ))
        else (n : ℚ)
      | none => 50
    let operator := directionOp query
    (some ⟨"height_m", operator, .num heightValue⟩,
      buildings.filter (heightPred operator heightValue))
  else if floorsRule query then
    let floorValue : ℚ :=
      match numUnitSearch floorUnitAlt query with
      | some n => (n : ℚ)
      | none => 5
    let operator := directionOp query
    (some ⟨"floors", operator, .num floorValue⟩,
      buildings.filter (floorsPred operator floorValue))
  else if commercialRule query then
    (some ⟨"land_use", "=", .str "commercial"⟩, buildings.filter commercialPred)
  else if residentialRule query then
    (some ⟨"land_use", "=", .str "residential"⟩, buildings.filter residentialPred)
  else if mixedRule query then
    (some ⟨"land_use", "=", .str "mixed_use"⟩, buildings.filter mixedPred)
  else
    (none, [])

/-- A persisted project as constructed by handleSaveProject and consumed
by handleLoadProject.  `query_results` snapshots id+properties of the
highlighted subset, which is exactly what a `Building` holds here. -/
structure Project where
  username : String
  name : String
  description : String
  target_area : String
  total_buildings : Nat
  highlighted_count : Nat
  query_results : List Building
  filters : List Filter
  query_text : String
deriving DecidableEq, Repr

/-- The numeric reading of a stored filter value.  A JS comparison of a
number against a non-numeric string is false (NaN comparison); the save
path only ever stores numbers for `height_m` and `floors` filters. -/
def fvalNum : FVal → Option ℚ
  | .num q => some q
  | .str _ => none

/-- Strict equality `b.properties?.building_type === savedFilter.value`:
true only when both sides are strings and equal. -/
def btypeMatchesFVal (v : FVal) (b : Building) : Bool :=
  match b.properties.building_type, v with
  | some s, .str t => decide (s = t)
  | _, _ => false

/-- The land-use filter callback of the restore path (handleLoadProject):
category keyword sets (four, four and three keywords — narrower than the
interpret path) with a fall-back to exact equality of the lowercased
strings. -/
def restoreLandUsePred (filterValue : List Char) (b : Building) : Bool :=
  let buildingLandUse := resolvedLandUse b.properties
  if filterValue = "commercial".data then
    incl buildingLandUse "commercial" || incl buildingLandUse "business" ||
    incl buildingLandUse "office" || incl buildingLandUse "retail"
  else if filterValue = "residential".data then
    incl buildingLandUse "residential" || incl buildingLandUse "home" ||
    incl buildingLandUse "house" || incl buildingLandUse "apartment"
  else if filterValue = "mixed_use".data then
    incl buildingLandUse "mixed" || incl buildingLandUse "multi" ||
    incl buildingLandUse "combination"
  else decide (buildingLandUse = filterValue)

/-- The height filter callback of the restore path: unlike the interpret
path it reads only the `height_m` property (truthy check, then numeric
comparison) — no `height_ft` conversion, no `height` string parsing. -/
def restoreHeightPred (gt : Bool) (v : FVal) (b : Building) : Bool :=
  match b.properties.height_m, fvalNum v with
  | some h, some w =>
    decide (h ≠ 0) && (if gt then decide (h > w) else decide (h < w))
  | _, _ => false

/-- The floors filter callback of the restore path (same truthy check and
comparison as the interpret path). -/
def restoreFloorsPred (gt : Bool) (v : FVal) (b : Building) : Bool :=
  match b.properties.floors, fvalNum v with
  | some fl, some w =>
    decide (fl ≠ 0) && (if gt then decide (fl > w) else decide (fl < w))
  | _, _ => false

/-- The filter application of handleLoadProject (lines 344-394).  Returns
`none` when the JS code would throw inside the filter callback: the
land_use branch calls `savedFilter.value.toLowerCase()`, a TypeError when
the stored value is a number (reached only if this branch computes the
lowercased value, i.e. before filtering; the surrounding try/catch then
skips every remaining state update).  All other branches are total; an
unrecognized attribute or operator leaves the initial `[]`. -/
def restoreEval (savedFilter : Filter) (buildings : List Building) :
    Option (List Building) :=
  if savedFilter.attr = "height_m" then
    if savedFilter.operator = ">" then
      some (buildings.filter (restoreHeightPred true savedFilter.value))
    else if savedFilter.operator = "<" then
      some (buildings.filter (restoreHeightPred false savedFilter.value))
    else some []
  else if savedFilter.attr = "floors" then
    if savedFilter.operator = ">" then
      some (buildings.filter (restoreFloorsPred true savedFilter.value))
    else if savedFilter.operator = "<" then
      some (buildings.filter (restoreFloorsPred false savedFilter.value))
    else some []
  else if savedFilter.attr = "building_type" then
    some (buildings.filter (btypeMatchesFVal savedFilter.value))
  else if savedFilter.attr = "land_use" then
    match savedFilter.value with
    | .str s => some (buildings.filter (restoreLandUsePred (lowerChars s)))
    | .num _ => none
  else some []

/-- The local state of the Dashboard component that the embedded handlers
read and write. -/
structure DashState where
  queryText : String
  interpretedFilter : Option Filter
  highlightedBuildings : List Building
  buildings : List Building
  currentProject : Option Project
  username : String
  selectedZone : Option String
  zoneData : Option String
deriving DecidableEq, Repr

/-- `selectedZone` read as a string: `none` (JS null) behaves like the
empty string for the falsiness checks below. -/
def selectedZoneStr (st : DashState) : String :=
  match st.selectedZone with
  | some z => z
  | none => ""

/-- `zoneData?.name || selectedZone` — the display label used in the
default project name and description. -/
def zoneLabel (st : DashState) : String :=
  match st.zoneData with
  | some n => if n = "" then selectedZoneStr st else n
  | none => selectedZoneStr st

/-- JS `s.trim()` as a character list: drop leading and trailing
whitespace.  Only its emptiness is ever consulted. -/
def jsTrim (s : String) : List Char :=
  ((s.data.dropWhile isJsWs).reverse.dropWhile isJsWs).reverse

/-- handleQuerySubmit at state level: `if (!queryText.trim()) return`
ignores a blank query, otherwise the interpreter runs and the highlighted
subset and interpreted filter are stored. -/
def handleQuerySubmit (st : DashState) : DashState :=
  if jsTrim st.queryText = [] then st
  else
    let r := interpret st.queryText st.buildings
    { st with highlightedBuildings := r.2, interpretedFilter := r.1 }

/-- handleClearQuery: reset query text, filter and highlighted subset. -/
def handleClearQuery (st : DashState) : DashState :=
  { st with queryText := "", interpretedFilter := none, highlightedBuildings := [] }

/-- The `projectData` object built by handleSaveProject. -/
def buildProjectData (projectName : Option String) (st : DashState) : Project :=
  { username := st.username
    name :=
      match projectName with
      | some n => if n = "" then "Analysis of " ++ zoneLabel st else n
      | none => "Analysis of " ++ zoneLabel st
    description := "LLM analysis of buildings in " ++ zoneLabel st
    target_area := selectedZoneStr st
    total_buildings := st.buildings.length
    highlighted_count := st.highlightedBuildings.length
    query_results := st.highlightedBuildings
    filters :=
      match st.interpretedFilter with
      | some f => [f]
      | none => []
    query_text := st.queryText }

/-- handleSaveProject at state level.  `saveOk` is the outcome of the
external `projectsAPI.saveProject` call.  Returns the new local state and
the project shape sent to the store (`none` when the guard bailed out).
On success the query text, interpreted filter and highlighted subset are
cleared; on failure the catch block only logs, leaving all state as it
was. -/
def handleSaveProject (saveOk : Bool) (projectName : Option String)
    (st : DashState) : DashState × Option Project :=
  if st.username = "" ∨ selectedZoneStr st = "" then (st, none)
  else
    let projectData := buildProjectData projectName st
    if saveOk then
      ({ st with queryText := "", interpretedFilter := none, highlightedBuildings := [] },
        some projectData)
    else (st, some projectData)

/-- handleLoadProject at state level: set the current project; if it has
filters, store `filters[0]` as the interpreted filter and re-evaluate it
with `restoreEval` against the currently loaded buildings; on success
store the result and restore a non-empty saved query text.  A `none` from
`restoreEval` is the thrown-and-caught path, which leaves the remaining
state untouched. -/
def handleLoadProject (project : Option Project) (st : DashState) : DashState :=
  match project with
  | none => st
  | some p =>
    let st1 := { st with currentProject := some p }
    match p.filters with
    | [] => st1
    | savedFilter :: _ =>
      let st2 := { st1 with interpretedFilter := some savedFilter }
      match restoreEval savedFilter st2.buildings with
      | none => st2
      | some filtered =>
        let st3 := { st2 with highlightedBuildings := filtered }
        if p.query_text = "" then st3 else { st3 with queryText := p.query_text }

/-!
### Spec-side definitions

Definitions in this section are written from the words of the claims (or
their amended forms), not from the source, and exist only to state the
claim theorems against the embedded code above.
-/

/-- Spec-side: the query is classified as height intent — none of the
four building-type rules fires and the height rule does. -/
def classifiedAsHeight (query : List Char) : Bool :=
  !lowRiseRule query && !midRiseRule query && !highRiseRule query &&
  !singleStoryRule query && heightRule query

/-- Spec-side: the query is classified as floors intent — no earlier rule
fires and the floors rule does. -/
def classifiedAsFloors (query : List Char) : Bool :=
  !lowRiseRule query && !midRiseRule query && !highRiseRule query &&
  !singleStoryRule query && !heightRule query && floorsRule query

/-- Spec-side: some keyword rule of the classifier fires. -/
def anyRule (query : List Char) : Bool :=
  lowRiseRule query || midRiseRule query || highRiseRule query ||
  singleStoryRule query || heightRule query || floorsRule query ||
  commercialRule query || residentialRule query || mixedRule query

/-- Spec-side (amended C3): the height threshold the interpreter should
produce — the first `<integer> <unit>` match, converted and rounded to 2
decimal places when the query contains "feet" or "ft" anywhere (not the
matched unit token, which is what the original claim said), else the
integer; 50 when there is no match. -/
def specHeightValue (query : List Char) : ℚ :=
  match numUnitSearch heightUnitAlt query with
  | some n =>
    if incl query "feet" || incl query "ft" then round2 (feetToMeters (n : ℚ))
    else (n : ℚ)
  | none => 50

/-- Spec-side, for stating the original C3: whether the unit token the
regex match actually consumed is a feet variant, honoring the alternation
order `meters?|metres?|m|feet?|ft`. -/
def unitTokenIsFeet (cs : List Char) : Option Bool :=
  if isPre "meter" cs || isPre "metre" cs || isPre "m" cs then some false
  else if isPre "fee" cs || isPre "ft" cs then some true
  else none

/-- Spec-side, for stating the original C3: the unit variant consumed by
the first match of the height regex, mirroring the search of
`numUnitSearch`. -/
def matchedUnitIsFeet : List Char → Option Bool
  | [] => none
  | c :: rest =>
    if c.isDigit then
      match unitTokenIsFeet ((List.dropWhile Char.isDigit (c :: rest)).dropWhile isJsWs) with
      | some b => some b
      | none => matchedUnitIsFeet rest
    else matchedUnitIsFeet rest

/-- Spec-side (original C5): the lowercased resolved land use contains
one of the four keywords residential / home / house / apartment. -/
def specResidentialFour (b : Building) : Bool :=
  let lu := resolvedLandUse b.properties
  incl lu "residential" || incl lu "home" || incl lu "house" || incl lu "apartment"

/-- Spec-side (amended C5): the lowercased resolved land use contains one
of the six keywords residential / home / house / apartment / condo /
dwelling. -/
def specResidentialSix (b : Building) : Bool :=
  let lu := resolvedLandUse b.properties
  incl lu "residential" || incl lu "home" || incl lu "house" ||
  incl lu "apartment" || incl lu "condo" || incl lu "dwelling"

/-!
### Concrete fixtures shared by the theorems below
-/

/-- A building whose only height information is `height_ft = 200`
(resolves to 60.96 m through the interpret chain, unresolvable for the
restore path). -/
def bFt200 : Building := ⟨1, { emptyProps with height_ft := some 200 }⟩

/-- A building storing its height only as the string `"15.2m"`. -/
def bHeightStr : Building := ⟨2, { emptyProps with height := some "15.2m" }⟩

/-- A building whose only height information is `height_ft = 80`
(resolves to 24.384 m). -/
def bFt80 : Building := ⟨3, { emptyProps with height_ft := some 80 }⟩

/-- A building with `land_use = "Condo"`. -/
def bCondo : Building := ⟨4, { emptyProps with land_use := some "Condo" }⟩

/-- A building with `land_use = "Mixed Residential/Retail"`. -/
def bMixedRes : Building := ⟨5, { emptyProps with land_use := some "Mixed Residential/Retail" }⟩

/-- A building with `floors = 0`. -/
def bFloors0 : Building := ⟨6, { emptyProps with floors := some 0 }⟩

/-- An empty Dashboard state. -/
def baseState : DashState :=
  { queryText := "", interpretedFilter := none, highlightedBuildings := [],
    buildings := [], currentProject := none, username := "",
    selectedZone := none, zoneData := none }

/-!
### Claim theorems
-/

/-- C2 counterexample: the query "show tall low rise buildings" contains
the substring "tall", yet interpretation produces the low_rise
building-type filter (rule 1 precedes the tall rule), not the high_rise
filter the claim predicts for every query containing "tall". -/
theorem C2_counterexample :
    incl (lowerChars "show tall low rise buildings") "tall" = true ∧
    (interpret "show tall low rise buildings" []).1 =
      some ⟨"building_type", "=", FVal.str "low_rise"⟩ ∧
    (interpret "show tall low rise buildings" []).1 ≠
      some ⟨"building_type", "=", FVal.str "high_rise"⟩ := by
  decide

/-- C2 (amended): for every query whose lowercased text contains "tall"
and matches neither the low-rise rule nor the mid-rise rule, the
classifier reaches rule 3 and interpretation produces the filter
attribute building_type, operator eq ("="), value high_rise — never a
height_m filter — because the high_rise rule is tested before the height
rule. -/
theorem C2_tall_precedence (q : String) (B : List Building)
    (hlow : lowRiseRule (lowerChars q) = false)
    (hmid : midRiseRule (lowerChars q) = false)
    (htall : incl (lowerChars q) "tall" = true) :
    (interpret q B).1 = some ⟨"building_type", "=", FVal.str "high_rise"⟩ := by
  unfold interpret
  simp [hlow, hmid, highRiseRule, htall]

/-- C2 witness: the theorem applied to the documented query
"show buildings over 100 feet tall". -/
theorem C2_tall_precedence_witness :
    lowRiseRule (lowerChars "show buildings over 100 feet tall") = false ∧
    midRiseRule (lowerChars "show buildings over 100 feet tall") = false ∧
    incl (lowerChars "show buildings over 100 feet tall") "tall" = true ∧
    (interpret "show buildings over 100 feet tall" []).1 =
      some ⟨"building_type", "=", FVal.str "high_rise"⟩ :=
  ⟨by decide, by decide, by decide,
    C2_tall_precedence "show buildings over 100 feet tall" [] (by decide) (by decide) (by decide)⟩

unseal Rat.mul Rat.add Rat.sub Rat.inv in
/-- C3 counterexample: in "height 10 m or ft" the regex matches "10 m" —
a meters unit token, so the claim predicts the value 10 — but because the
query contains "ft" elsewhere the code converts, producing 3.05. -/
theorem C3_counterexample :
    matchedUnitIsFeet (lowerChars "height 10 m or ft") = some false ∧
    (interpret "height 10 m or ft" []).1 =
      some ⟨"height_m", ">", FVal.num (61 / 20)⟩ ∧
    (61 / 20 : ℚ) ≠ 10 := by
  decide

/-- C3 (amended): for every query classified as height intent, if the
text matches `<integer> <unit>` the filter value is that integer, except
that it is converted by feetToMeters and rounded to 2 decimal places when
the query contains "feet" or "ft" anywhere (rather than when the matched
unit token is a feet variant, which is what the original claim said); if
no pattern matches the value is 50; the operator is ">" unless the query
contains under / below / less than, in which case it is "<". -/
theorem C3_height_extraction (q : String) (B : List Building)
    (h : classifiedAsHeight (lowerChars q) = true) :
    (interpret q B).1 =
      some ⟨"height_m", directionOp (lowerChars q),
        FVal.num (specHeightValue (lowerChars q))⟩ := by
  unfold classifiedAsHeight at h
  simp only [Bool.and_eq_true, Bool.not_eq_true'] at h
  obtain ⟨⟨⟨⟨h1, h2⟩, h3⟩, h4⟩, h5⟩ := h
  unfold interpret specHeightValue
  simp [h1, h2, h3, h4, h5]

unseal Rat.mul Rat.add Rat.sub Rat.inv in
/-- C3 witness: the theorem applied to "show buildings over 30 meters"
(value 30, operator ">"). -/
theorem C3_height_extraction_witness :
    classifiedAsHeight (lowerChars "show buildings over 30 meters") = true ∧
    (interpret "show buildings over 30 meters" []).1 =
      some ⟨"height_m", ">", FVal.num 30⟩ :=
  ⟨by decide,
    (C3_height_extraction "show buildings over 30 meters" [] (by decide)).trans (by decide)⟩

unseal Rat.mul Rat.add Rat.sub Rat.inv in
/-- C4: the height resolution priority chain — a truthy `height_m` wins,
else a truthy `height_ft` is converted to meters, else the `height`
string is parsed (unit by substring, non-digit characters stripped,
converted if feet), else the record is unresolved and excluded; and
concretely, "find buildings under 20 meters" yields the filter
height_m < 20, a record with height = "15.2m" resolves to 15.2 and is
highlighted, and a record with height_ft = 80 resolves to
80 * 0.3048 = 24.384 and is excluded. -/
theorem C4_height_resolution :
    (∀ p : Props, truthyQ p.height_m = true → resolveHeightChain p = p.height_m) ∧
    (∀ p : Props, truthyQ p.height_m = false → truthyQ p.height_ft = true →
      resolveHeightChain p = p.height_ft.map feetToMeters) ∧
    (∀ (p : Props) (s : String), truthyQ p.height_m = false → truthyQ p.height_ft = false →
      p.height = some s → s ≠ "" → resolveHeightChain p = parseHeightStr s) ∧
    (∀ p : Props, truthyQ p.height_m = false → truthyQ p.height_ft = false →
      p.height = none → resolveHeightChain p = none) ∧
    (∀ (b : Building) (operator : String) (v : ℚ),
      resolveHeightChain b.properties = none → heightPred operator v b = false) ∧
    (interpret "find buildings under 20 meters" [bHeightStr, bFt80]).1 =
      some ⟨"height_m", "<", FVal.num 20⟩ ∧
    resolveHeightChain bHeightStr.properties = some (152 / 10) ∧
    resolveHeightChain bFt80.properties = some (24384 / 1000) ∧
    (interpret "find buildings under 20 meters" [bHeightStr, bFt80]).2 = [bHeightStr] := by
  refine ⟨?_, ?_, ?_, ?_, ?_, ?_, ?_, ?_, ?_⟩
  · intro p h; simp [resolveHeightChain, h]
  · intro p h1 h2; simp [resolveHeightChain, h1, h2]
  · intro p s h1 h2 h3 h4; simp [resolveHeightChain, h1, h2, h3, h4]
  · intro p h1 h2 h3; simp [resolveHeightChain, h1, h2, h3]
  · intro b operator v h; simp [heightPred, h]
  · decide
  · decide
  · decide
  · decide

unseal Rat.mul Rat.add Rat.sub Rat.inv in
/-- C4 witness: the chain conjuncts of the theorem applied at concrete
records (truthy height_m wins; height_ft converts; the string parses; a
bare record is unresolved and excluded). -/
theorem C4_height_resolution_witness :
    resolveHeightChain { emptyProps with height_m := some 7 } = some 7 ∧
    resolveHeightChain bFt80.properties = bFt80.properties.height_ft.map feetToMeters ∧
    resolveHeightChain bHeightStr.properties = parseHeightStr "15.2m" ∧
    resolveHeightChain emptyProps = none ∧
    heightPred "<" 20 ⟨9, emptyProps⟩ = false :=
  ⟨C4_height_resolution.1 _ (by decide),
    C4_height_resolution.2.1 _ (by decide) (by decide),
    C4_height_resolution.2.2.1 _ "15.2m" (by decide) (by decide) (by decide) (by decide),
    C4_height_resolution.2.2.2.1 _ (by decide) (by decide) (by decide),
    C4_height_resolution.2.2.2.2.1 ⟨9, emptyProps⟩ "<" 20 (by decide)⟩

/-- C5 counterexample: for "show residential buildings" the evaluator
also selects a record with land_use = "Condo", which contains none of the
four substrings residential / home / house / apartment, so the selection
is not exact over those four keywords. -/
theorem C5_counterexample :
    (interpret "show residential buildings" [bCondo]).2 = [bCondo] ∧
    specResidentialFour bCondo = false := by
  decide

/-- C5 (amended): for "show residential buildings" the evaluator selects
exactly the records whose resolved lowercased land_use contains one of
the six substrings residential / home / house / apartment / condo /
dwelling (the interpret path also matches condo and dwelling); a record
with land_use = "Mixed Residential/Retail" is included. -/
theorem C5_residential_six :
    (∀ B : List Building,
      (interpret "show residential buildings" B).2 = B.filter specResidentialSix) ∧
    (interpret "show residential buildings" [bMixedRes]).2 = [bMixedRes] := by
  constructor
  · intro B; rfl
  · decide

/-- C6: "find buildings with more than 10 floors" produces the filter
floors > 10; evaluation excludes every record whose floors property is
missing; and for any floors-classified query with no
`<integer> floor/story` pattern the default threshold 5 applies. -/
theorem C6_floors_query :
    (∀ B : List Building,
      (interpret "find buildings with more than 10 floors" B).1 =
        some ⟨"floors", ">", FVal.num 10⟩) ∧
    (∀ (B : List Building) (b : Building), b.properties.floors = none →
      b ∈ (interpret "find buildings with more than 10 floors" B).2 → False) ∧
    (∀ (q : String) (B : List Building), classifiedAsFloors (lowerChars q) = true →
      numUnitSearch floorUnitAlt (lowerChars q) = none →
      (interpret q B).1 = some ⟨"floors", directionOp (lowerChars q), FVal.num 5⟩) := by
  refine ⟨fun B => rfl, ?_, ?_⟩
  · intro B b hfl hmem
    have h : b ∈ B.filter (floorsPred ">" 10) := hmem
    have h2 := (List.mem_filter.mp h).2
    simp [floorsPred, hfl] at h2
  · intro q B h hm
    unfold classifiedAsFloors at h
    simp only [Bool.and_eq_true, Bool.not_eq_true'] at h
    obtain ⟨⟨⟨⟨⟨h1, h2⟩, h3⟩, h4⟩, h5⟩, h6⟩ := h
    unfold interpret
    simp [h1, h2, h3, h4, h5, h6, hm]

/-- C6 witness: the parts of the theorem at concrete inputs — the exact
query on a collection with a floors-less record, and "show floors" (no
numeric pattern, default 5, default direction ">"). -/
theorem C6_floors_query_witness :
    (interpret "find buildings with more than 10 floors" [bCondo]).1 =
      some ⟨"floors", ">", FVal.num 10⟩ ∧
    (bCondo ∈ (interpret "find buildings with more than 10 floors" [bCondo]).2 → False) ∧
    (interpret "show floors" []).1 = some ⟨"floors", ">", FVal.num 5⟩ :=
  ⟨C6_floors_query.1 [bCondo],
    C6_floors_query.2.1 [bCondo] bCondo (by decide),
    (C6_floors_query.2.2 "show floors" [] (by decide) (by decide)).trans (by decide)⟩

/-- C7: a submitted query (one surviving the blank-query guard) matching
none of the keyword rules produces filter = null and an empty highlighted
subset — and nothing else changes, no error path is taken (the model is
total on this branch). -/
theorem C7_unclassifiable (st : DashState)
    (hq : jsTrim st.queryText ≠ [])
    (h : anyRule (lowerChars st.queryText) = false) :
    handleQuerySubmit st =
      { st with interpretedFilter := none, highlightedBuildings := [] } := by
  unfold handleQuerySubmit
  rw [if_neg hq]
  unfold anyRule at h
  simp only [Bool.or_eq_false_iff] at h
  obtain ⟨⟨⟨⟨⟨⟨⟨⟨h1, h2⟩, h3⟩, h4⟩, h5⟩, h6⟩, h7⟩, h8⟩, h9⟩ := h
  unfold interpret
  simp [h1, h2, h3, h4, h5, h6, h7, h8, h9]

/-- C7 witness: "hello there" matches no rule; submitting it on a state
with a previous highlight clears the filter and highlighted subset. -/
theorem C7_unclassifiable_witness :
    jsTrim ("hello there" : String) ≠ [] ∧
    anyRule (lowerChars "hello there") = false ∧
    handleQuerySubmit
        { baseState with
          queryText := "hello there", buildings := [bCondo],
          highlightedBuildings := [bCondo] } =
      { baseState with
        queryText := "hello there", buildings := [bCondo],
        interpretedFilter := none, highlightedBuildings := [] } :=
  ⟨by decide, by decide, C7_unclassifiable _ (by decide) (by decide)⟩

/-- C8: restoring a project whose first filter carries an attribute other
than building_type, height_m, floors or land_use sets the highlighted
subset to the empty list without failing: no branch of the restore
evaluator fires, the initial empty list survives, and the filter itself
is still stored. -/
theorem C8_unknown_attribute (p : Project) (st : DashState) (f : Filter) (fs : List Filter)
    (hp : p.filters = f :: fs)
    (h1 : f.attr ≠ "building_type") (h2 : f.attr ≠ "height_m")
    (h3 : f.attr ≠ "floors") (h4 : f.attr ≠ "land_use") :
    restoreEval f st.buildings = some [] ∧
    (handleLoadProject (some p) st).highlightedBuildings = [] ∧
    (handleLoadProject (some p) st).interpretedFilter = some f := by
  have he : restoreEval f st.buildings = some [] := by
    unfold restoreEval
    rw [if_neg h2, if_neg h3, if_neg h1, if_neg h4]
  refine ⟨he, ?_, ?_⟩ <;>
  · unfold handleLoadProject
    simp only [hp, he]
    split <;> rfl

/-- C8 witness: a saved filter on the unknown attribute "zoning" restores
to an empty highlighted subset over a non-empty collection. -/
theorem C8_unknown_attribute_witness :
    (handleLoadProject
        (some { username := "esther", name := "p", description := "", target_area := "z",
                total_buildings := 1, highlighted_count := 1, query_results := [bCondo],
                filters := [⟨"zoning", "=", FVal.str "CC-X"⟩], query_text := "q" })
        { baseState with buildings := [bCondo] }).highlightedBuildings = [] :=
  (C8_unknown_attribute _ { baseState with buildings := [bCondo] }
    ⟨"zoning", "=", FVal.str "CC-X"⟩ [] rfl
    (by decide) (by decide) (by decide) (by decide)).2.1

/-- C9: a `floors` value of 0 is JS-falsy, so both the interpret-path and
the restore-path floors evaluation exclude the record for every operator
and threshold — including a `<` filter with a positive threshold that
would numerically include it — and a `height_m` of 0 is skipped by the
height resolution chain, which falls through to `height_ft` and the
`height` string exactly as if `height_m` were absent. -/
theorem C9_zero_unresolved :
    (∀ (operator : String) (v : ℚ) (b : Building), b.properties.floors = some 0 →
      floorsPred operator v b = false) ∧
    (∀ (operator : String) (w : FVal) (b : Building), b.properties.floors = some 0 →
      restoreEval ⟨"floors", operator, w⟩ [b] = some []) ∧
    (∀ p : Props, p.height_m = some 0 →
      resolveHeightChain p = resolveHeightChain { p with height_m := none }) := by
  refine ⟨?_, ?_, ?_⟩
  · intro operator v b h
    simp [floorsPred, h]
  · intro operator w b h
    have hbt : restoreFloorsPred true w b = false := by
      cases w <;> simp [restoreFloorsPred, fvalNum, h]
    have hbf : restoreFloorsPred false w b = false := by
      cases w <;> simp [restoreFloorsPred, fvalNum, h]
    simp only [restoreEval]
    rw [if_neg (by decide), if_pos trivial]
    split <;> simp [hbt, hbf]
  · intro p h
    simp [resolveHeightChain, truthyQ, h]

/-- C9 witness: a record with floors = 0 is excluded by the filter
floors < 5 on both paths, and zeroing height_m leaves the chain result of
a height_ft record unchanged. -/
theorem C9_zero_unresolved_witness :
    floorsPred "<" 5 bFloors0 = false ∧
    restoreEval ⟨"floors", "<", FVal.num 5⟩ [bFloors0] = some [] ∧
    resolveHeightChain { bFt80.properties with height_m := some 0 } =
      resolveHeightChain bFt80.properties :=
  ⟨C9_zero_unresolved.1 "<" 5 bFloors0 rfl,
    C9_zero_unresolved.2.1 "<" (FVal.num 5) bFloors0 rfl,
    C9_zero_unresolved.2.2 { bFt80.properties with height_m := some 0 } rfl⟩

/-- C10: a successful save resets query text to "", the interpreted
filter to null and the highlighted subset to empty; a failed save (the
external call rejects, the catch block only logs) leaves the whole local
state unchanged. -/
theorem C10_save_atomic :
    (∀ (st : DashState) (nm : Option String), st.username ≠ "" → selectedZoneStr st ≠ "" →
      (handleSaveProject true nm st).1 =
        { st with
          queryText := "", interpretedFilter := none,
          highlightedBuildings := [] }) ∧
    (∀ (st : DashState) (nm : Option String), (handleSaveProject false nm st).1 = st) := by
  constructor
  · intro st nm hu hz
    unfold handleSaveProject
    rw [if_neg (not_or.mpr ⟨hu, hz⟩)]
    rfl
  · intro st nm
    unfold handleSaveProject
    split <;> rfl

/-- A state with a live query, interpreted filter and highlight, used to
witness the save behavior. -/
def c10State : DashState :=
  { baseState with
    queryText := "show residential buildings", username := "esther",
    selectedZone := some "east_village", buildings := [bMixedRes],
    highlightedBuildings := [bMixedRes],
    interpretedFilter := some ⟨"land_use", "=", FVal.str "residential"⟩ }

/-- C10 witness: the theorem on a state with a live query, filter and
highlight. -/
theorem C10_save_atomic_witness :
    c10State.username ≠ "" ∧ selectedZoneStr c10State ≠ "" ∧
    (handleSaveProject true none c10State).1 =
      { c10State with
        queryText := "", interpretedFilter := none,
        highlightedBuildings := [] } ∧
    (handleSaveProject false none c10State).1 = c10State :=
  ⟨by decide, by decide, C10_save_atomic.1 c10State none (by decide) (by decide),
    C10_save_atomic.2 c10State none⟩

/-- The starting state of the C1 round-trip scenario: one building whose
only height information is height_ft = 200, and the query
"show buildings over 50 meters". -/
def c1Start : DashState :=
  { baseState with
    queryText := "show buildings over 50 meters",
    buildings := [bFt200], username := "esther",
    selectedZone := some "stephen_avenue" }

unseal Rat.mul Rat.add Rat.sub Rat.inv in
/-- C1: the round-trip fails on the code.  Submitting
"show buildings over 50 meters" against a collection whose single record
carries only height_ft = 200 highlights it (the interpret chain resolves
200 ft to 60.96 m > 50) and produces the filter height_m > 50; saving
stores exactly that filter and query text; but restoring the saved
project against the same collection yields an empty highlighted subset,
because the restore path reads only the height_m property. -/
theorem C1_restore_diverges :
    (handleQuerySubmit c1Start).interpretedFilter =
      some ⟨"height_m", ">", FVal.num 50⟩ ∧
    (handleQuerySubmit c1Start).highlightedBuildings = [bFt200] ∧
    (handleSaveProject true none (handleQuerySubmit c1Start)).2 =
      some (buildProjectData none (handleQuerySubmit c1Start)) ∧
    (buildProjectData none (handleQuerySubmit c1Start)).filters =
      [⟨"height_m", ">", FVal.num 50⟩] ∧
    (buildProjectData none (handleQuerySubmit c1Start)).query_text =
      "show buildings over 50 meters" ∧
    (handleLoadProject (handleSaveProject true none (handleQuerySubmit c1Start)).2
        (handleSaveProject true none (handleQuerySubmit c1Start)).1).highlightedBuildings =
      [] := by
  decide

end Calgary
